import Mathlib

/-!
Verification development for the simple-ecommerce-backend repository.

The definitions below are a shallow embedding of the backend's database
rows and controller functions (Prisma + Express code).  Database tables
are lists of rows, record ids come from per-table autoincrement counters,
and each controller is a pure function from a database state (plus the
request data) to the next database state and a response.  JavaScript
number arithmetic is modelled exactly as IEEE-754 binary64 rationals.
-/

deriving instance DecidableEq for Except

namespace ECom

/-! ## JavaScript number arithmetic (IEEE-754 binary64)

The checkout controller computes the order total with JavaScript numbers:
`cartItems.reduce((prev, cur) => prev + cur.quantity * cur.product.price.toNumber(), 0)`.
`Decimal.toNumber()` converts the exact decimal price to a binary64 double
and `+` / `*` round every intermediate result to the nearest double
(ties to even).  We model a double by the exact rational value it denotes.
-/

/-- Rational addition through `Rat.divInt` (the library's bundled
arithmetic on `ℚ` is sealed against kernel evaluation, so the embedding
carries its own evaluable copies of the field operations). -/
def qAdd (a b : ℚ) : ℚ :=
  Rat.divInt (a.num * (b.den : Int) + b.num * (a.den : Int)) ((a.den : Int) * (b.den : Int))

/-- Rational multiplication through `Rat.divInt`. -/
def qMul (a b : ℚ) : ℚ := Rat.divInt (a.num * b.num) ((a.den : Int) * (b.den : Int))

/-- Rational negation through `Rat.divInt`. -/
def qNeg (a : ℚ) : ℚ := Rat.divInt (- a.num) (a.den : Int)

/-- Rational subtraction through `Rat.divInt`. -/
def qSub (a b : ℚ) : ℚ := qAdd a (qNeg b)

/-- Rational inverse through `Rat.divInt` (sends 0 to 0). -/
def qInv (a : ℚ) : ℚ := Rat.divInt (a.den : Int) a.num

/-- Rational division through `Rat.divInt`. -/
def qDiv (a b : ℚ) : ℚ := qMul a (qInv b)

/-- Boolean strict order on rationals. -/
def qLt (a b : ℚ) : Bool := Rat.blt a b

/-- Boolean order on rationals. -/
def qLe (a b : ℚ) : Bool := !(Rat.blt b a)

/-- Floor of a rational, computed with flooring integer division. -/
def ratFloor (q : ℚ) : ℤ := Int.fdiv q.num q.den

/-- Round a rational to the nearest integer, ties to even. -/
def roundHalfEven (q : ℚ) : ℤ :=
  let f : ℤ := ratFloor q
  let r : ℚ := qSub q (Rat.divInt f 1)
  if qLt r (mkRat 1 2) then f
  else if qLt (mkRat 1 2) r then f + 1
  else if f % 2 = 0 then f else f + 1

/-- Fuel-bounded binary exponent search: for `0 < q` it returns the `e`
with `2 ^ e ≤ q < 2 ^ (e + 1)` (the fuel covers the whole binary64 range). -/
def findExpAux : Nat → ℚ → ℤ
  | 0, _ => 0
  | fuel + 1, q =>
    if qLe (mkRat 2 1) q then 1 + findExpAux fuel (qDiv q (mkRat 2 1))
    else if qLt q (mkRat 1 1) then findExpAux fuel (qMul (mkRat 2 1) q) - 1
    else 0

/-- Integer power of two as a rational. -/
def qpow2 (e : ℤ) : ℚ :=
  if 0 ≤ e then Rat.divInt ((2 : Int) ^ e.toNat) 1 else Rat.divInt 1 ((2 : Int) ^ (-e).toNat)

/-- Round a positive rational to the nearest binary64 double
(53-bit significand, round to nearest, ties to even). -/
def roundB64Pos (q : ℚ) : ℚ :=
  let e := findExpAux 1200 q
  let ulp := qpow2 (e - 52)
  qMul (Rat.divInt (roundHalfEven (qDiv q ulp)) 1) ulp

/-- Round a rational to the exact value of the nearest binary64 double.
All numbers reached by the embedded controllers are in the normal range,
so overflow and subnormal handling never come into play. -/
def roundB64 (q : ℚ) : ℚ :=
  if q = 0 then 0
  else if qLt (mkRat 0 1) q then roundB64Pos q
  else qNeg (roundB64Pos (qNeg q))

/-- JavaScript `+` on numbers: exact sum rounded to the nearest double. -/
def jsAdd (a b : ℚ) : ℚ := roundB64 (qAdd a b)

/-- JavaScript `*` on numbers: exact product rounded to the nearest double. -/
def jsMul (a b : ℚ) : ℚ := roundB64 (qMul a b)

/-! ## Data model

Rows carry the columns that the embedded controllers read or write.
The `status` columns are strings, holding whatever string the JavaScript
code passes for them (the controllers are not checked against the
`OrderEventStatus` enum at compile time).
-/

/-- The `Role` enum of the user table. -/
inductive Role
  | USER
  | ADMIN
deriving DecidableEq, Repr

/-- A row of the `users` table. -/
structure UserR where
  id : Nat
  name : String
  email : String
  password : String
  role : Role
  defaultShippingAddressId : Option Nat
  defaultBillingAddressId : Option Nat
deriving DecidableEq, Repr

/-- A row of the `addresses` table. -/
structure AddressR where
  id : Nat
  userId : Nat
  lineOne : String
  lineTwo : Option String
  city : String
  country : String
  zipcode : String
deriving DecidableEq, Repr

/-- A row of the `products` table (only the columns the embedded
operations consult; `price` is the exact value of the Decimal column). -/
structure ProductR where
  id : Nat
  price : ℚ
deriving DecidableEq, Repr

/-- A row of the `cart_items` table. -/
structure CartItemR where
  id : Nat
  userId : Nat
  productId : Nat
  quantity : Int
deriving DecidableEq, Repr

/-- A row of the `orders` table. -/
structure OrderRow where
  id : Nat
  userId : Nat
  netAmount : ℚ
  address : String
  status : String
deriving DecidableEq, Repr

/-- A row of the order products table. -/
structure OrderItemRow where
  id : Nat
  orderId : Nat
  productId : Nat
  quantity : Int
deriving DecidableEq, Repr

/-- A row of the `order_events` table; larger `id` means created later. -/
structure OrderEventRow where
  id : Nat
  orderId : Nat
  status : String
deriving DecidableEq, Repr

/-- The database state: one list per table plus the autoincrement
counters that assign fresh primary keys. -/
structure DB where
  users : List UserR
  addresses : List AddressR
  products : List ProductR
  cartItems : List CartItemR
  orders : List OrderRow
  orderItems : List OrderItemRow
  orderEvents : List OrderEventRow
  nextUserId : Nat
  nextAddressId : Nat
  nextCartItemId : Nat
  nextOrderId : Nat
  nextOrderItemId : Nat
  nextOrderEventId : Nat
deriving DecidableEq, Repr

/-- The typed error outcomes raised by the controllers (the
`HttpException` subclasses plus the generic 500 fallback of the
`errorHandler` wrapper).  `addressNotConfigured` is the error named by
the spec's checkout contract; no controller in the source ever raises
it, it exists here only to be compared against what the code returns. -/
inductive ApiError
  | userNotFound
  | userAlreadyExists
  | incorrectPassword
  | productNotFound
  | addressNotFound
  | orderNotFound
  | unprocessable
  | internal
  | addressNotConfigured
deriving DecidableEq, Repr

/-! ## Shared query helpers -/

/-- The cart lines of one user, as read by
`cartItem.findMany(where: userId)` in `createOrder` and `getCart`. -/
def cartLines (db : DB) (uid : Nat) : List CartItemR :=
  db.cartItems.filter (fun c => c.userId == uid)

/-- Resolve the product of a cart line (the `include: product` join;
the foreign key keeps this total on well-formed states). -/
def joinProduct (db : DB) (c : CartItemR) : Option ProductR :=
  db.products.find? (fun p => p.id == c.productId)

/-- Cart lines paired with their product rows, dropping lines whose
foreign key does not resolve (impossible on well-formed states). -/
def joinedCart (db : DB) (cart : List CartItemR) : List (CartItemR × ProductR) :=
  cart.filterMap (fun c => (joinProduct db c).map (fun p => (c, p)))

/-- The order total exactly as `createOrder` computes it:
`cartItems.reduce((prev, cur) => prev + cur.quantity * cur.product.price.toNumber(), 0)`.
Every price is first converted from the exact Decimal to a binary64
double by `toNumber()` and the sum is accumulated in doubles. -/
def codeNetAmount (db : DB) (cart : List CartItemR) : ℚ :=
  (joinedCart db cart).foldl
    (fun acc cp => jsAdd acc (jsMul (Rat.divInt cp.1.quantity 1) (roundB64 cp.2.price)))
    (mkRat 0 1)

/-- Modelled from the spec: `netAmount = Σ(quantity × product.price)`
computed in exact decimal arithmetic, with no floating-point rounding.
This is the comparison definition for the numerical claim; the code's
own computation is `codeNetAmount` above. -/
def exactNetAmount (db : DB) (cart : List CartItemR) : ℚ :=
  (joinedCart db cart).foldl
    (fun acc cp => qAdd acc (qMul (Rat.divInt cp.1.quantity 1) cp.2.price))
    (mkRat 0 1)

/-- The `formattedAddress` computed field of the extended Prisma client:
`[lineOne, city, country-zipcode]`, with `lineTwo` spliced in after
`lineOne` when it is truthy (present and non-empty). -/
def formattedAddress (a : AddressR) : String :=
  match a.lineTwo with
  | some l2 =>
    if l2 = "" then String.intercalate ", " [a.lineOne, a.city, a.country ++ "-" ++ a.zipcode]
    else String.intercalate ", " [a.lineOne, l2, a.city, a.country ++ "-" ++ a.zipcode]
  | none => String.intercalate ", " [a.lineOne, a.city, a.country ++ "-" ++ a.zipcode]

/-- The address lookup of `createOrder`:
`address.findFirst(where: id = request.user.defaultShippingAddressId!)`.
`request.user` is the row the auth middleware read back from the
database, so an unconfigured default shipping address arrives here as
`null` (the `!` is a compile-time assertion only), and Prisma rejects a
`null` filter on the non-nullable `id` column with a validation error —
the call throws, modelled as `.error .internal` (the transaction rolls
back and the generic wrapper answers 500).  With a configured id the
query returns the first row carrying that id, or no row. -/
def findAddressForCheckout (db : DB) (u : UserR) : Except ApiError (Option AddressR) :=
  match u.defaultShippingAddressId with
  | none => .error .internal
  | some aid => .ok (db.addresses.find? (fun a => a.id == aid))

/-- The most recently created event of an order (largest autoincrement id). -/
def latestEvent (db : DB) (oid : Nat) : Option OrderEventRow :=
  (db.orderEvents.filter (fun e => e.orderId == oid)).foldl
    (fun acc e =>
      match acc with
      | none => some e
      | some a => if a.id ≤ e.id then some e else some a)
    none

/-! ## Checkout (`createOrder`, src/controllers/orders.ts)

The controller body runs inside `prismaClient.$transaction`, so a throw
at any step after the cart read aborts the transaction and leaves the
database unchanged.  The `CreateFault` parameter injects such a failure
at each of the fallible steps (address read, order insert, event insert,
cart delete); `noFault` is the run in which every database call succeeds. -/

/-- Failure-injection points of the checkout transaction. -/
inductive CreateFault
  | noFault
  | atAddressRead
  | atOrderCreate
  | atEventCreate
  | atCartDelete
deriving DecidableEq, Repr

/-- Outcome of `createOrder`: the non-error empty-cart response, the
created order, or an error (every error aborts the transaction). -/
inductive CreateOrderResult
  | emptyCart
  | ok (o : OrderRow)
  | error (e : ApiError)
deriving DecidableEq, Repr

/-- The checkout controller `createOrder`.  Steps, in source order:
read the cart (joined with products), return `cart is empty` when it has
no line, reduce the total in JavaScript doubles, fetch the address row,
insert the order together with one order item per cart line (productId
and quantity only), insert one order event relying on the schema's
`PENDING` default, and delete all of the user's cart rows.  Two address
failure modes end in a rollback and the generic 500 answer: the lookup
itself throws when the user has no configured default (null filter on
the id column), and when the configured id resolves to no row,
`address?.formattedAddress!` is `undefined` and the order insert rejects
the missing required column. -/
def createOrder (u : UserR) (fault : CreateFault) (db : DB) : DB × CreateOrderResult :=
  let cart := cartLines db u.id
  if cart.length = 0 then (db, .emptyCart)
  else
    let totalPrice := codeNetAmount db cart
    if fault = .atAddressRead then (db, .error .internal)
    else
      match findAddressForCheckout db u with
      | .error e => (db, .error e)
      | .ok none => (db, .error .internal)
      | .ok (some a) =>
        if fault = .atOrderCreate then (db, .error .internal)
        else
          let order : OrderRow :=
            { id := db.nextOrderId, userId := u.id, netAmount := totalPrice,
              address := formattedAddress a, status := "PENDING" }
          let items : List OrderItemRow :=
            cart.enum.map (fun nc =>
              { id := db.nextOrderItemId + nc.1, orderId := order.id,
                productId := nc.2.productId, quantity := nc.2.quantity })
          if fault = .atEventCreate then (db, .error .internal)
          else
            let ev : OrderEventRow :=
              { id := db.nextOrderEventId, orderId := order.id, status := "PENDING" }
            if fault = .atCartDelete then (db, .error .internal)
            else
              ({ db with
                  orders := db.orders ++ [order],
                  orderItems := db.orderItems ++ items,
                  orderEvents := db.orderEvents ++ [ev],
                  cartItems := db.cartItems.filter (fun c => !(c.userId == u.id)),
                  nextOrderId := db.nextOrderId + 1,
                  nextOrderItemId := db.nextOrderItemId + cart.length,
                  nextOrderEventId := db.nextOrderEventId + 1 },
                .ok order)

/-! ## Order cancellation (`cancelOrder`, src/controllers/orders.ts)

The source runs two independent client calls with no transaction around
them: `order.update(where: id, data: status = "CANCELED")` and then
`orderEvent.create(orderId, status: "CANCELED")`, inside one `try` whose
`catch` throws `NotFoundException("Order not found")` for every error.
The caller identity is never consulted.  `CancelFault.atEventCreate`
injects a failure into the second call; because there is no transaction,
the status update of the first call is then NOT rolled back. -/

/-- Failure-injection point of `cancelOrder` (the event insert). -/
inductive CancelFault
  | noFault
  | atEventCreate
deriving DecidableEq, Repr

/-- The `cancelOrder` controller. -/
def cancelOrder (caller : UserR) (orderId : Nat) (fault : CancelFault) (db : DB) :
    DB × Except ApiError OrderRow :=
  match db.orders.find? (fun o => o.id == orderId) with
  | none => (db, .error .orderNotFound)
  | some o =>
    let updated : OrderRow := { o with status := "CANCELED" }
    let db1 : DB := { db with orders := db.orders.map (fun x => if x.id == orderId then updated else x) }
    if fault = .atEventCreate then (db1, .error .orderNotFound)
    else
      let ev : OrderEventRow := { id := db1.nextOrderEventId, orderId := o.id, status := "CANCELED" }
      ({ db1 with
          orderEvents := db1.orderEvents ++ [ev],
          nextOrderEventId := db1.nextOrderEventId + 1 },
        .ok updated)

/-- The `getOrderById` controller: `order.findFirstOrThrow(where: id)`
with `include: products, events`.  The where clause has no userId
condition, so any authenticated caller receives any existing order. -/
def getOrderById (caller : UserR) (orderId : Nat) (db : DB) :
    Except ApiError (OrderRow × List OrderItemRow × List OrderEventRow) :=
  match db.orders.find? (fun o => o.id == orderId) with
  | none => .error .orderNotFound
  | some o =>
    .ok (o, db.orderItems.filter (fun i => i.orderId == o.id),
         db.orderEvents.filter (fun e => e.orderId == o.id))

/-! ## Address book (`users.ts` controller) -/

/-- The `deleteAddress` controller: `address.delete(where: id)` — the
where clause carries only the id, never the caller's userId. -/
def deleteAddress (caller : UserR) (addressId : Nat) (db : DB) : DB × Except ApiError Unit :=
  if db.addresses.any (fun a => a.id == addressId) then
    ({ db with addresses := db.addresses.filter (fun a => !(a.id == addressId)) }, .ok ())
  else (db, .error .addressNotFound)

/-! ## Cart (`cart.ts` controller)

`CreateCartSchema` is `z.object(productId: z.number(), quantity: z.number())`
and `ChangeQuantitySchema` is `z.object(quantity: z.number())`: both only
require the fields to be numbers and place no bound on the quantity. -/

/-- The quantity check of `CreateCartSchema` / `ChangeQuantitySchema`:
`z.number()` accepts every number, so on a typed quantity it always
passes. -/
def zodQuantityOK (q : Int) : Bool := true

/-- The `addItemToCart` controller.  It fetches the product
(`findFirstOrThrow`, 404 when absent), then looks for an existing cart
row with `cartItem.findFirst(where: productId)` — the where clause has
no userId condition — and either increments that row's quantity (whoever
owns it) or inserts a fresh row for the caller. -/
def addItemToCart (caller : UserR) (productId : Nat) (quantity : Int) (db : DB) :
    DB × Except ApiError CartItemR :=
  if !(zodQuantityOK quantity) then (db, .error .unprocessable)
  else
    match db.products.find? (fun p => p.id == productId) with
    | none => (db, .error .productNotFound)
    | some p =>
      match db.cartItems.find? (fun c => c.productId == p.id) with
      | some existing =>
        let updated : CartItemR := { existing with quantity := existing.quantity + quantity }
        ({ db with
            cartItems := db.cartItems.map (fun x => if x.id == existing.id then updated else x) },
          .ok updated)
      | none =>
        let row : CartItemR :=
          { id := db.nextCartItemId, userId := caller.id, productId := p.id, quantity := quantity }
        ({ db with cartItems := db.cartItems ++ [row], nextCartItemId := db.nextCartItemId + 1 },
          .ok row)

/-- The `deleteItemFromCart` controller:
`cartItem.delete(where: id AND userId = request.user.id)`; a missing or
foreign row raises, and the catch answers 404 (with the controller's
`Product not found!` message). -/
def deleteItemFromCart (caller : UserR) (cartItemId : Nat) (db : DB) :
    DB × Except ApiError CartItemR :=
  match db.cartItems.find? (fun c => c.id == cartItemId && c.userId == caller.id) with
  | some c =>
    ({ db with
        cartItems := db.cartItems.filter (fun x => !(x.id == cartItemId && x.userId == caller.id)) },
      .ok c)
  | none => (db, .error .productNotFound)

/-- The `changeQuantity` controller:
`cartItem.update(where: id AND userId, data: quantity)`.  The new
quantity is stored as validated by `ChangeQuantitySchema` (any number).
There is no try/catch here, so a missing or foreign row escapes to the
generic wrapper as a 500. -/
def changeQuantity (caller : UserR) (cartItemId : Nat) (quantity : Int) (db : DB) :
    DB × Except ApiError CartItemR :=
  if !(zodQuantityOK quantity) then (db, .error .unprocessable)
  else
    match db.cartItems.find? (fun c => c.id == cartItemId && c.userId == caller.id) with
    | some c =>
      let updated : CartItemR := { c with quantity := quantity }
      ({ db with
          cartItems := db.cartItems.map
            (fun x => if x.id == cartItemId && x.userId == caller.id then updated else x) },
        .ok updated)
    | none => (db, .error .internal)

/-! ## Authentication (`auth.ts` controller) -/

/-- A signup request body. -/
structure SignUpBody where
  name : String
  email : String
  password : String
deriving DecidableEq, Repr

/-- Coarse model of the zod email format check of `SignUpSchema`
(one `@` with non-empty sides); the exact regex does not matter to the
claims settled here. -/
def zodEmailOK (s : String) : Bool :=
  let cs := s.toList
  ((cs.filter (fun c => c == '@')).length == 1)
    && !(cs.head? == some '@') && !(cs.getLast? == some '@')

/-- The `SignUpSchema` validation: name a string, email in email format,
password at least 6 characters. -/
def signUpSchemaOK (b : SignUpBody) : Bool :=
  zodEmailOK b.email && decide (6 ≤ b.password.length)

/-- The `signUp` controller: validate, reject an existing email, store a
new user whose password column holds `hashSync(password, 10)`, and send
the freshly stored row — password column included — as the JSON
response.  The bcrypt hash is an opaque parameter of the embedding. -/
def signUp (hash : String → String) (b : SignUpBody) (db : DB) : DB × Except ApiError UserR :=
  if !(signUpSchemaOK b) then (db, .error .unprocessable)
  else
    match db.users.find? (fun u => u.email == b.email) with
    | some _ => (db, .error .userAlreadyExists)
    | none =>
      let u : UserR :=
        { id := db.nextUserId, name := b.name, email := b.email, password := hash b.password,
          role := .USER, defaultShippingAddressId := none, defaultBillingAddressId := none }
      ({ db with users := db.users ++ [u], nextUserId := db.nextUserId + 1 }, .ok u)

/-- The JWT issued on login (`jwt.sign(userId, JWT_SECRET)`); its exact
contents play no role in the claims, only that it accompanies the user. -/
def signToken (uid : Nat) : String := "jwt-" ++ toString uid

/-- The `logIn` controller: find the user by email (404 when absent),
check the password with `compareSync` (modelled by the opaque `verify`
parameter), and send the whole stored user row — password column
included — next to the token. -/
def logIn (verify : String → String → Bool) (email pw : String) (db : DB) :
    Except ApiError (UserR × String) :=
  match db.users.find? (fun u => u.email == email) with
  | none => .error .userNotFound
  | some u =>
    if !(verify pw u.password) then .error .incorrectPassword
    else .ok (u, signToken u.id)

/-! ## Concrete fixtures

Small database states used to instantiate the theorems below. -/

/-- An empty database. -/
def emptyDB : DB :=
  { users := [], addresses := [], products := [], cartItems := [], orders := [],
    orderItems := [], orderEvents := [],
    nextUserId := 1, nextAddressId := 1, nextCartItemId := 1,
    nextOrderId := 1, nextOrderItemId := 1, nextOrderEventId := 1 }

/-- A regular user who owns address 10 as default shipping address. -/
def userA : UserR :=
  { id := 1, name := "alice", email := "alice@shop.test", password := "h-pw-a", role := .USER,
    defaultShippingAddressId := some 10, defaultBillingAddressId := none }

/-- A second regular user with no default addresses. -/
def userB : UserR :=
  { id := 2, name := "bob", email := "bob@shop.test", password := "h-pw-b", role := .USER,
    defaultShippingAddressId := none, defaultBillingAddressId := none }

/-- A user with no default shipping address configured. -/
def userNoAddr : UserR :=
  { id := 3, name := "dana", email := "dana@shop.test", password := "h-pw-d", role := .USER,
    defaultShippingAddressId := none, defaultBillingAddressId := none }

/-- The address of `userA` (id 10). -/
def addrA : AddressR :=
  { id := 10, userId := 1, lineOne := "1 Main St", lineTwo := none,
    city := "Springfield", country := "US", zipcode := "11111" }

/-- An address owned by `userB` (id 20). -/
def addrB : AddressR :=
  { id := 20, userId := 2, lineOne := "9 Side Rd", lineTwo := none,
    city := "Shelbyville", country := "US", zipcode := "22222" }

/-- A product priced 10.00. -/
def prodTen : ProductR := { id := 1, price := mkRat 10 1 }

/-- A product priced 5.00. -/
def prodFive : ProductR := { id := 2, price := mkRat 5 1 }

/-- A product priced 0.10 — one dime, not representable in binary64. -/
def prodDime : ProductR := { id := 1, price := mkRat 1 10 }

/-- Fixture for checkout: `userA` has two cart lines (2 x 10.00, 1 x 5.00). -/
def dbCheckout : DB :=
  { emptyDB with
      users := [userA, userB],
      addresses := [addrA],
      products := [prodTen, prodFive],
      cartItems :=
        [{ id := 1, userId := 1, productId := 1, quantity := 2 },
         { id := 2, userId := 1, productId := 2, quantity := 1 }],
      nextCartItemId := 3 }

/-- Fixture for the numerical claim: `userA` has a single cart line of
three dimes (3 x 0.10). -/
def dbDrift : DB :=
  { emptyDB with
      users := [userA],
      addresses := [addrA],
      products := [prodDime],
      cartItems := [{ id := 1, userId := 1, productId := 1, quantity := 3 }],
      nextCartItemId := 2 }

/-- The order that checkout produces on `dbDrift`: the stored total is
the binary64 value of `3 * 0.1`, not three tenths. -/
def driftOrder : OrderRow :=
  { id := 1, userId := 1, netAmount := Rat.divInt 1351079888211149 ((2 : Int) ^ 52),
    address := formattedAddress addrA, status := "PENDING" }

/-- An existing PENDING order of `userA`. -/
def orderA : OrderRow :=
  { id := 1, userId := 1, netAmount := mkRat 25 1,
    address := formattedAddress addrA, status := "PENDING" }

/-- The initial PENDING event of `orderA`. -/
def evA : OrderEventRow := { id := 1, orderId := 1, status := "PENDING" }

/-- An order item of `orderA`. -/
def itemA : OrderItemRow := { id := 1, orderId := 1, productId := 1, quantity := 2 }

/-- Fixture with `userA`'s order on file and both users present. -/
def dbOrders : DB :=
  { emptyDB with
      users := [userA, userB],
      addresses := [addrA],
      orders := [orderA],
      orderItems := [itemA],
      orderEvents := [evA],
      nextOrderId := 2, nextOrderItemId := 2, nextOrderEventId := 2 }

/-- Fixture for the missing-default-address scenario: `userNoAddr` has a
non-empty cart, and the addresses table holds `userB`'s address (whose
presence changes nothing: the null id filter fails before any row could
be matched). -/
def dbNoDefaultAddr : DB :=
  { emptyDB with
      users := [userNoAddr, userB],
      addresses := [addrB],
      products := [prodFive],
      cartItems := [{ id := 1, userId := 3, productId := 2, quantity := 2 }],
      nextCartItemId := 2 }

/-- Fixture for the cart claims: `userA` owns the only cart line
(product 1, quantity 2) and `userB`'s cart is empty. -/
def dbCart : DB :=
  { emptyDB with
      users := [userA, userB],
      products := [prodTen],
      cartItems := [{ id := 1, userId := 1, productId := 1, quantity := 2 }],
      nextCartItemId := 2 }

/-- Fixture with a product on file and every cart empty. -/
def dbEmptyCart : DB :=
  { emptyDB with users := [userA, userB], addresses := [addrA], products := [prodTen] }

/-- The bcrypt hash, instantiated for witnesses. -/
def exHash : String → String := fun s => "h-" ++ s

/-- The bcrypt comparison matching `exHash`, instantiated for witnesses. -/
def exVerify : String → String → Bool := fun p h => h == exHash p

/-- A signup request body for witnesses. -/
def carolBody : SignUpBody := { name := "carol", email := "carol@shop.test", password := "secret1" }

/-- The user row that `signUp` stores for `carolBody` on `emptyDB`. -/
def carolUser : UserR :=
  { id := 1, name := "carol", email := "carol@shop.test", password := "h-secret1",
    role := .USER, defaultShippingAddressId := none, defaultBillingAddressId := none }

/-- The database after `carolBody` signed up on `emptyDB`. -/
def dbAfterCarol : DB := { emptyDB with users := [carolUser], nextUserId := 2 }

set_option maxRecDepth 100000

/-! ## Theorems -/

/-- C1: for every user with a non-empty cart, `createOrder` creates
exactly one Order, one OrderItem per cart line (productId and quantity
only), and one PENDING OrderEvent, and deletes all of that user's
CartItems; and the effects are all-or-nothing — on any failure after the
cart read (any injected fault, or an unresolved address) the database is
exactly the initial one. -/
theorem checkout_all_or_nothing (u : UserR) (fault : CreateFault) (db : DB)
    (hne : cartLines db u.id ≠ []) :
    (∀ o, (createOrder u fault db).2 = CreateOrderResult.ok o →
      o.id = db.nextOrderId ∧ o.userId = u.id ∧ o.status = "PENDING" ∧
      (createOrder u fault db).1.orders = db.orders ++ [o] ∧
      (createOrder u fault db).1.orderItems =
        db.orderItems ++ (cartLines db u.id).enum.map (fun nc =>
          { id := db.nextOrderItemId + nc.1, orderId := db.nextOrderId,
            productId := nc.2.productId, quantity := nc.2.quantity }) ∧
      (createOrder u fault db).1.orderEvents =
        db.orderEvents ++
          [{ id := db.nextOrderEventId, orderId := db.nextOrderId, status := "PENDING" }] ∧
      (createOrder u fault db).1.cartItems =
        db.cartItems.filter (fun c => !(c.userId == u.id))) ∧
    (∀ e, (createOrder u fault db).2 = CreateOrderResult.error e →
      (createOrder u fault db).1 = db) := by
  have hlen : (cartLines db u.id).length ≠ 0 := by
    cases h : cartLines db u.id with
    | nil => exact absurd h hne
    | cons a l => simp
  constructor
  · intro o ho
    rcases haddr : findAddressForCheckout db u with e | ao <;>
      (try cases ao) <;>
        cases fault <;>
          simp_all [createOrder, haddr] <;> (cases ho; simp)
  · intro e he
    rcases haddr : findAddressForCheckout db u with e2 | ao <;>
      (try cases ao) <;>
        cases fault <;>
          simp_all [createOrder, haddr]

/-- Witness for C1: on `dbCheckout` (two cart lines, 2 x 10.00 and
1 x 5.00) the fault-free checkout appends exactly the 25.00 order and
clears the cart. -/
theorem checkout_all_or_nothing_witness :
    (createOrder userA CreateFault.noFault dbCheckout).1.orders =
      dbCheckout.orders ++
        [{ id := 1, userId := 1, netAmount := mkRat 25 1,
           address := formattedAddress addrA, status := "PENDING" }] ∧
    (createOrder userA CreateFault.noFault dbCheckout).1.cartItems =
      dbCheckout.cartItems.filter (fun c => !(c.userId == userA.id)) := by
  have h :=
    (checkout_all_or_nothing userA CreateFault.noFault dbCheckout (by decide)).1
      { id := 1, userId := 1, netAmount := mkRat 25 1,
        address := formattedAddress addrA, status := "PENDING" }
      (by decide)
  exact ⟨h.2.2.2.1, h.2.2.2.2.2.2⟩

/-- C2 (counterexample): on a cart of three 0.10 items the stored
`netAmount` is the binary64 value `0.30000000000000004...`, not the
exact decimal sum `0.30` — the code computes the reduce in JavaScript
floating point after `price.toNumber()`. -/
theorem netAmount_rounding_drift :
    (createOrder userA CreateFault.noFault dbDrift).2 = CreateOrderResult.ok driftOrder ∧
    exactNetAmount dbDrift (cartLines dbDrift userA.id) = mkRat 3 10 ∧
    driftOrder.netAmount ≠ exactNetAmount dbDrift (cartLines dbDrift userA.id) :=
  ⟨by decide, by decide, by decide⟩

/-- C2 (amended): the `netAmount` stored by `createOrder` is the
binary64 floating-point reduce of `quantity * price.toNumber()` over the
cart lines, which can drift from the exact decimal sum. -/
theorem netAmount_is_binary64_sum (u : UserR) (fault : CreateFault) (db : DB) (o : OrderRow)
    (h : (createOrder u fault db).2 = CreateOrderResult.ok o) :
    o.netAmount = codeNetAmount db (cartLines db u.id) := by
  by_cases hlen : (cartLines db u.id).length = 0
  · simp [createOrder, hlen] at h
  · rcases haddr : findAddressForCheckout db u with e | ao <;>
      (try cases ao) <;>
        cases fault <;>
          simp_all [createOrder, haddr] <;> (cases h; simp)

/-- Witness for the amended C2 at the drift fixture. -/
theorem netAmount_is_binary64_sum_witness :
    driftOrder.netAmount = codeNetAmount dbDrift (cartLines dbDrift userA.id) :=
  netAmount_is_binary64_sum userA CreateFault.noFault dbDrift driftOrder (by decide)

/-- C3: for a user whose cart is empty, `createOrder` answers the
non-error `cart is empty` result and the database — every table and
counter — is exactly unchanged, whatever fault is injected later. -/
theorem empty_cart_checkout_is_noop (u : UserR) (fault : CreateFault) (db : DB)
    (h : cartLines db u.id = []) :
    createOrder u fault db = (db, CreateOrderResult.emptyCart) := by
  simp [createOrder, h]

/-- Witness for C3 on the empty-cart fixture. -/
theorem empty_cart_checkout_is_noop_witness :
    createOrder userB CreateFault.noFault dbEmptyCart = (dbEmptyCart, CreateOrderResult.emptyCart) :=
  empty_cart_checkout_is_noop userB CreateFault.noFault dbEmptyCart (by decide)

/-- C4 (code bug): `cancelOrder` updates the order status and inserts
the event in two separate non-transactional calls; when the event insert
fails the status update survives, reaching a state whose order status
(`CANCELED`) differs from its most recent event status (`PENDING`). -/
theorem cancel_status_update_not_atomic :
    ((cancelOrder userA 1 CancelFault.atEventCreate dbOrders).1.orders.find?
        (fun o => o.id == 1)).map OrderRow.status = some "CANCELED" ∧
    (latestEvent (cancelOrder userA 1 CancelFault.atEventCreate dbOrders).1 1).map
        OrderEventRow.status = some "PENDING" ∧
    (cancelOrder userA 1 CancelFault.atEventCreate dbOrders).2 =
      Except.error ApiError.orderNotFound := by
  decide

/-- C5 (code bug): `cancelOrder` never consults the caller, so a
non-owning non-admin user cancels a foreign order successfully instead
of receiving Forbidden (and the stored status string is `CANCELED`, not
the `CANCELLED` member of the documented enum). -/
theorem cancel_ignores_ownership :
    orderA.userId = userA.id ∧ userB.id ≠ userA.id ∧ userB.role ≠ Role.ADMIN ∧
    (cancelOrder userB 1 CancelFault.noFault dbOrders).2 =
      Except.ok { orderA with status := "CANCELED" } ∧
    (cancelOrder userB 1 CancelFault.noFault dbOrders).1.orders =
      [{ orderA with status := "CANCELED" }] := by
  decide

/-- C6 (code bug): a distinct user deletes the owner's address
(`deleteAddress` filters only on id) and reads the owner's full order
with items and events (`getOrderById` has no userId condition), so
cross-user access is neither Forbidden nor NotFound and data leaks. -/
theorem cross_user_reads_and_deletes_allowed :
    addrA.userId = userA.id ∧ orderA.userId = userA.id ∧
    userB.id ≠ userA.id ∧ userB.role ≠ Role.ADMIN ∧
    (deleteAddress userB addrA.id dbOrders).2 = Except.ok () ∧
    (deleteAddress userB addrA.id dbOrders).1.addresses = [] ∧
    getOrderById userB 1 dbOrders = Except.ok (orderA, [itemA], [evA]) := by
  decide

/-- C7 (counterexample): at a user with no configured default shipping
address and a non-empty cart, `createOrder` fails with the generic 500
internal error — the Prisma validation error on the null id filter — and
not with `AddressNotConfigured` as the claim states; the database is
exactly unchanged. -/
theorem checkout_unconfigured_address_generic_error :
    userNoAddr.defaultShippingAddressId = none ∧
    createOrder userNoAddr CreateFault.noFault dbNoDefaultAddr =
      (dbNoDefaultAddr, CreateOrderResult.error ApiError.internal) ∧
    ApiError.internal ≠ ApiError.addressNotConfigured := by
  decide

/-- C7 (amended): whenever the user's default shipping address is absent
or its id resolves to no address row, `createOrder` fails with the
generic internal error — not `AddressNotConfigured` — and performs no
writes: the database, cart included, is exactly the initial one, and in
particular no order with an undefined or blank address snapshot exists. -/
theorem checkout_unconfigured_address_500_no_writes (u : UserR) (fault : CreateFault) (db : DB)
    (hne : cartLines db u.id ≠ [])
    (h : u.defaultShippingAddressId = none ∨
      ∃ aid, u.defaultShippingAddressId = some aid ∧
        db.addresses.find? (fun a => a.id == aid) = none) :
    createOrder u fault db = (db, CreateOrderResult.error ApiError.internal) := by
  have hlen : (cartLines db u.id).length ≠ 0 := by
    cases hc : cartLines db u.id with
    | nil => exact absurd hc hne
    | cons a l => simp
  have haddr : findAddressForCheckout db u = Except.error ApiError.internal ∨
      findAddressForCheckout db u = Except.ok none := by
    rcases h with h | ⟨aid, h1, h2⟩
    · exact Or.inl (by simp [findAddressForCheckout, h])
    · exact Or.inr (by simp [findAddressForCheckout, h1, h2])
  rcases haddr with ha | ha <;> cases fault <;> simp_all [createOrder, ha]

/-- Witness for the amended C7 at the concrete fixture. -/
theorem checkout_unconfigured_address_500_no_writes_witness :
    createOrder userNoAddr CreateFault.noFault dbNoDefaultAddr =
      (dbNoDefaultAddr, CreateOrderResult.error ApiError.internal) :=
  checkout_unconfigured_address_500_no_writes userNoAddr CreateFault.noFault dbNoDefaultAddr
    (by decide) (Or.inl (by decide))

/-- C8 (code bug): `addItemToCart` looks the existing line up by
productId alone, so a second user adding the same product increments the
first user's row and receives no row of their own. -/
theorem cart_add_merges_across_users :
    dbCart.cartItems = [{ id := 1, userId := userA.id, productId := 1, quantity := 2 }] ∧
    (addItemToCart userB 1 3 dbCart).2 =
      Except.ok { id := 1, userId := userA.id, productId := 1, quantity := 5 } ∧
    (addItemToCart userB 1 3 dbCart).1.cartItems =
      [{ id := 1, userId := userA.id, productId := 1, quantity := 5 }] ∧
    (addItemToCart userB 1 3 dbCart).1.cartItems.filter (fun c => c.userId == userB.id) = [] := by
  decide

/-- C9 (code bug): the cart schemas only require `quantity` to be a
number, so `addItemToCart` stores a zero quantity and `changeQuantity`
stores a negative one — reachable CartItems with quantity ≤ 0. -/
theorem nonpositive_quantity_stored :
    (addItemToCart userA 1 0 dbEmptyCart).1.cartItems =
      [{ id := 1, userId := 1, productId := 1, quantity := 0 }] ∧
    (changeQuantity userA 1 (-5) dbCart).1.cartItems =
      [{ id := 1, userId := 1, productId := 1, quantity := -5 }] ∧
    ¬((0 : Int) > 0) ∧ ¬((-5 : Int) > 0) := by
  decide

/-- C10: every successful `signUp` response is the freshly stored user
row whose password column is the bcrypt hash, and every successful
`logIn` response contains the full stored user row (password column
included). -/
theorem auth_responses_disclose_password_hash :
    (∀ (hash : String → String) (b : SignUpBody) (db db2 : DB) (u : UserR),
      signUp hash b db = (db2, Except.ok u) →
      u ∈ db2.users ∧ u.password = hash b.password) ∧
    (∀ (verify : String → String → Bool) (email pw : String) (db : DB) (u : UserR) (t : String),
      logIn verify email pw db = Except.ok (u, t) → u ∈ db.users) := by
  constructor
  · intro hash b db db2 u h
    unfold signUp at h
    by_cases hv : signUpSchemaOK b
    · cases hf : db.users.find? (fun x => x.email == b.email) with
      | some w => simp [hv, hf] at h
      | none =>
        simp [hv, hf] at h
        obtain ⟨h1, h2⟩ := h
        subst_vars
        exact ⟨by simp, by simp⟩
    · simp [hv] at h
  · intro verify email pw db u t h
    unfold logIn at h
    cases hf : db.users.find? (fun x => x.email == email) with
    | none => simp [hf] at h
    | some w =>
      simp only [hf] at h
      by_cases hv : verify pw w.password
      · simp [hv] at h
        obtain ⟨hu, ht⟩ := h
        subst hu
        exact List.mem_of_find?_eq_some hf
      · simp [hv] at h

/-- Witness for C10: carol's signup and login on the concrete store. -/
theorem auth_responses_disclose_password_hash_witness :
    (carolUser ∈ dbAfterCarol.users ∧ carolUser.password = exHash carolBody.password) ∧
    carolUser ∈ dbAfterCarol.users :=
  ⟨auth_responses_disclose_password_hash.1 exHash carolBody emptyDB dbAfterCarol carolUser
      (by decide),
    auth_responses_disclose_password_hash.2 exVerify "carol@shop.test" "secret1" dbAfterCarol
      carolUser (signToken 1) (by decide)⟩

end ECom
